import Mathlib

/-!
Shallow embedding of the core simulation of the T-rex runner game
(src/index.js) and verification of its specification claims.

JavaScript numbers are modelled as rationals (ℚ); `Math.floor` is `Int.floor`
and `Math.round x` is `⌊x + 1/2⌋` (JS rounds half-up, also for negatives).
Drawing calls (`draw`, canvas contexts) have no effect on the simulation
state and are omitted.  `Math.random()` draws are passed explicitly as
arguments (a rational in `[0,1)` or, where the code immediately maps the
draw through `getRandomNum(0, n-1)`, an element of `Fin n`).
-/

/-- JavaScript `Math.round`: round half towards positive infinity. -/
def jsRound (q : ℚ) : ℤ := ⌊q + 1/2⌋

/-- `getRandomNum(min, max)` from src/index.js:
`Math.floor(Math.random() * (max - min + 1)) + min`, with the
`Math.random()` result passed explicitly as `r`. -/
def getRandomNum (min max : ℤ) (r : ℚ) : ℤ :=
  ⌊r * ((max : ℚ) - (min : ℚ) + 1)⌋ + min

/-- Frames per second constant (`FPS` in src/index.js). -/
def FPS : ℚ := 60

/-- An axis-aligned collision box (`CollisionBox` in src/index.js). -/
structure CollisionBox where
  x : ℚ
  y : ℚ
  width : ℚ
  height : ℚ
deriving DecidableEq

/-- `boxCompare` from src/index.js: axis-aligned bounding-box overlap,
strict inequalities on both axes. -/
def boxCompare (tRexBox obstacleBox : CollisionBox) : Bool :=
  decide (tRexBox.x < obstacleBox.x + obstacleBox.width ∧
    tRexBox.x + tRexBox.width > obstacleBox.x ∧
    tRexBox.y < obstacleBox.y + obstacleBox.height ∧
    tRexBox.height + tRexBox.y > obstacleBox.y)

/-- `createAdjustedCollisionBox` from src/index.js: translate `box` by the
origin of `adjustment`. -/
def createAdjustedCollisionBox (box adjustment : CollisionBox) : CollisionBox :=
  ⟨box.x + adjustment.x, box.y + adjustment.y, box.width, box.height⟩

/-- The three obstacle type names of `Obstacle.types` in src/index.js. -/
inductive OTy where
  | cactusSmall
  | cactusLarge
  | pterodactyl
deriving DecidableEq

/-- Static per-type obstacle configuration (an entry of `Obstacle.types`).
`numFrames = 0` and `speedOffset = 0` model the absent (falsy) fields. -/
structure ObstacleTypeCfg where
  name : OTy
  width : ℚ
  height : ℚ
  multipleSpeed : ℚ
  minGap : ℚ
  minSpeed : ℚ
  collisionBoxes : List CollisionBox
  numFrames : ℕ
  frameRate : ℚ
  speedOffset : ℚ
deriving DecidableEq

/-- The CACTUS_SMALL entry of `Obstacle.types`. -/
def cactusSmallType : ObstacleTypeCfg :=
  { name := .cactusSmall, width := 17, height := 35, multipleSpeed := 4,
    minGap := 120, minSpeed := 0,
    collisionBoxes := [⟨0, 7, 5, 27⟩, ⟨4, 0, 6, 34⟩, ⟨10, 4, 7, 14⟩],
    numFrames := 0, frameRate := 0, speedOffset := 0 }

/-- The CACTUS_LARGE entry of `Obstacle.types`. -/
def cactusLargeType : ObstacleTypeCfg :=
  { name := .cactusLarge, width := 25, height := 50, multipleSpeed := 7,
    minGap := 120, minSpeed := 0,
    collisionBoxes := [⟨0, 12, 7, 38⟩, ⟨8, 0, 7, 49⟩, ⟨13, 10, 10, 38⟩],
    numFrames := 0, frameRate := 0, speedOffset := 0 }

/-- The PTERODACTYL entry of `Obstacle.types`. -/
def pterodactylType : ObstacleTypeCfg :=
  { name := .pterodactyl, width := 46, height := 40, multipleSpeed := 999,
    minGap := 150, minSpeed := 8.5,
    collisionBoxes := [⟨15, 15, 16, 5⟩, ⟨18, 21, 24, 6⟩, ⟨2, 14, 4, 3⟩,
      ⟨6, 10, 4, 7⟩, ⟨10, 8, 6, 9⟩],
    numFrames := 2, frameRate := 1000/6, speedOffset := 0.8 }

/-- `Obstacle.types` from src/index.js, in source order. -/
def obstacleTypes : List ObstacleTypeCfg :=
  [cactusSmallType, cactusLargeType, pterodactylType]

/-- Mutable state of one obstacle (the fields of the `Obstacle` instance
that the simulation reads or writes). -/
structure ObstacleState where
  typeConfig : ObstacleTypeCfg
  xPos : ℚ
  yPos : ℚ
  size : ℕ
  width : ℚ
  collisionBoxes : List CollisionBox
  gap : ℤ
  speedOffset : ℚ
  currentFrame : ℕ
  timer : ℚ
  remove : Bool
deriving DecidableEq

/-- `Obstacle.MAX_GAP_COEFFICIENT` from src/index.js. -/
def MAX_GAP_COEFFICIENT : ℚ := 1.5

/-- `Obstacle.prototype.getGap` from src/index.js, parametrised by the
obstacle's final `width`, the type's `minGap` and the random draw `r`. -/
def Obstacle.getGap (width minGapCfg gapCoefficient speed r : ℚ) : ℤ :=
  let minGap := jsRound (width * speed + minGapCfg * gapCoefficient)
  let maxGap := jsRound ((minGap : ℚ) * MAX_GAP_COEFFICIENT)
  getRandomNum minGap maxGap r

/-- `Obstacle.prototype.isVisible` from src/index.js. -/
def Obstacle.isVisible (ob : ObstacleState) : Bool :=
  decide (ob.xPos + ob.width > 0)

/-- `Obstacle.prototype.update` from src/index.js.  The `draw` call in the
body only paints and is omitted.  -/
def Obstacle.update (ob : ObstacleState) (deltaTime speed : ℚ) : ObstacleState :=
  if ob.remove then ob
  else
    let speed := if ob.typeConfig.speedOffset ≠ 0 then speed + ob.speedOffset else speed
    let ob := { ob with xPos := ob.xPos - (⌊speed * FPS / 1000 * deltaTime⌋ : ℤ) }
    let ob :=
      if ob.typeConfig.numFrames ≠ 0 then
        let t := ob.timer + deltaTime
        if t ≥ ob.typeConfig.frameRate then
          { ob with
            currentFrame :=
              if ob.currentFrame = ob.typeConfig.numFrames - 1 then 0
              else ob.currentFrame + 1,
            timer := 0 }
        else { ob with timer := t }
      else ob
    if ¬ (Obstacle.isVisible ob = true) then { ob with remove := true } else ob

/-- Animation states of the player (`Trex.status` in src/index.js). -/
inductive TrexStatus where
  | CRASHED
  | DUCKING
  | JUMPING
  | RUNNING
  | WAITING
deriving DecidableEq

/-- Number of animation frames per status (`Trex.animFrames[s].frames.length`). -/
def Trex.animFramesLenOf : TrexStatus → ℕ
  | .WAITING => 2
  | .RUNNING => 2
  | .CRASHED => 1
  | .JUMPING => 1
  | .DUCKING => 2

/-- Frame duration per status (`Trex.animFrames[s].msPerFrame`). -/
def Trex.animMsPerFrame : TrexStatus → ℚ
  | .WAITING => 1000/3
  | .RUNNING => 1000/12
  | .CRASHED => 1000/60
  | .JUMPING => 1000/60
  | .DUCKING => 1000/8

/-- Trex.config constants from src/index.js. -/
def Trex.GRAVITY : ℚ := 0.6
/-- Trex.config.DROP_VELOCITY. -/
def Trex.DROP_VELOCITY : ℚ := -5
/-- Trex.config.SPEED_DROP_COEFFICIENT. -/
def Trex.SPEED_DROP_COEFFICIENT : ℚ := 3
/-- Trex.config.MAX_JUMP_HEIGHT. -/
def Trex.MAX_JUMP_HEIGHT : ℚ := 30
/-- Trex.config.START_X_POS. -/
def Trex.START_X_POS : ℚ := 50
/-- Trex.config.INTRO_DURATION. -/
def Trex.INTRO_DURATION : ℚ := 1500
/-- Trex.config.WIDTH. -/
def Trex.WIDTH : ℚ := 44
/-- Trex.config.HEIGHT. -/
def Trex.HEIGHT : ℚ := 47

/-- Mutable state of the player character (the fields of the `Trex`
instance that the simulation reads or writes; blink bookkeeping and the
canvas are omitted, they influence no claimed field). -/
structure TrexState where
  xPos : ℚ
  yPos : ℚ
  groundYPos : ℚ
  minJumpHeight : ℚ
  jumpVelocity : ℚ
  timer : ℚ
  msPerFrame : ℚ
  currentFrame : ℕ
  animFramesLen : ℕ
  jumpCount : ℕ
  status : TrexStatus
  jumping : Bool
  ducking : Bool
  speedDrop : Bool
  reachedMinHeight : Bool
  playingIntro : Bool
  midair : Bool
deriving DecidableEq

/-- The status/timer/intro/frame part of `Trex.prototype.update` (everything
before the speed-drop-to-duck conversion).  The WAITING-status `blink` call
only mutates blink bookkeeping and draws, and is omitted. -/
def Trex.updateStatusPart (t : TrexState) (deltaTime : ℚ) (optStatus : Option TrexStatus) :
    TrexState :=
  let t : TrexState := { t with timer := t.timer + deltaTime }
  let t : TrexState :=
    match optStatus with
    | some st =>
        { t with
          status := st,
          currentFrame := 0,
          msPerFrame := Trex.animMsPerFrame st,
          animFramesLen := Trex.animFramesLenOf st }
    | none => t
  let t : TrexState :=
    if t.playingIntro = true ∧ t.xPos < Trex.START_X_POS then
      { t with xPos := t.xPos + (jsRound (Trex.START_X_POS / Trex.INTRO_DURATION * deltaTime) : ℚ) }
    else t
  if t.timer ≥ t.msPerFrame then
    { t with
      currentFrame := if t.currentFrame = t.animFramesLen - 1 then 0 else t.currentFrame + 1,
      timer := 0 }
  else t

/-- `Trex.prototype.update` from src/index.js.  The tail of the source
function converts a speed drop into a duck once the ground is reached:
`this.speedDrop = false; this.setDuck(true)`.  `setDuck(true)` re-enters
`update` with `speedDrop` already false, so that inner call is exactly
`updateStatusPart` followed by the ducking-flag assignment. -/
def Trex.update (t : TrexState) (deltaTime : ℚ) (optStatus : Option TrexStatus) : TrexState :=
  let t1 := Trex.updateStatusPart t deltaTime optStatus
  if t1.speedDrop = true ∧ t1.yPos = t1.groundYPos then
    let t2 := { t1 with speedDrop := false }
    if t2.status ≠ TrexStatus.DUCKING then
      { Trex.updateStatusPart t2 0 (some TrexStatus.DUCKING) with ducking := true }
    else
      { Trex.updateStatusPart t2 0 (some TrexStatus.RUNNING) with ducking := false }
  else t1

/-- `Trex.prototype.endJump` from src/index.js. -/
def Trex.endJump (t : TrexState) : TrexState :=
  if t.reachedMinHeight = true ∧ t.jumpVelocity < Trex.DROP_VELOCITY then
    { t with jumpVelocity := Trex.DROP_VELOCITY }
  else t

/-- `Trex.prototype.reset` from src/index.js.  Note that it zeroes
`jumpCount` and that the embedded `update(0, RUNNING)` call runs before
`speedDrop` is cleared. -/
def Trex.reset (t : TrexState) : TrexState :=
  let t := { t with
    yPos := t.groundYPos,
    jumpVelocity := 0,
    jumping := false,
    ducking := false }
  let t := Trex.update t 0 (some TrexStatus.RUNNING)
  { t with midair := false, speedDrop := false, jumpCount := 0 }

/-- The y position produced by the position-integration step of
`Trex.prototype.updateJump` (the first statement group of the source
function). -/
def Trex.integratedY (t : TrexState) (deltaTime : ℚ) : ℚ :=
  let framesElapsed := deltaTime / Trex.animMsPerFrame t.status
  if t.speedDrop = true then
    t.yPos + (jsRound (t.jumpVelocity * Trex.SPEED_DROP_COEFFICIENT * framesElapsed) : ℚ)
  else
    t.yPos + (jsRound (t.jumpVelocity * framesElapsed) : ℚ)

/-- `Trex.prototype.updateJump` from src/index.js. -/
def Trex.updateJump (t : TrexState) (deltaTime : ℚ) : TrexState :=
  let framesElapsed := deltaTime / Trex.animMsPerFrame t.status
  let t :=
    if t.speedDrop = true then
      { t with yPos := t.yPos + (jsRound (t.jumpVelocity * Trex.SPEED_DROP_COEFFICIENT * framesElapsed) : ℚ) }
    else
      { t with yPos := t.yPos + (jsRound (t.jumpVelocity * framesElapsed) : ℚ) }
  let t := { t with jumpVelocity := t.jumpVelocity + Trex.GRAVITY * framesElapsed }
  let t :=
    if t.yPos < t.minJumpHeight ∨ t.speedDrop = true then
      { t with reachedMinHeight := true }
    else t
  let t :=
    if t.yPos < Trex.MAX_JUMP_HEIGHT ∨ t.speedDrop = true then Trex.endJump t else t
  let t :=
    if t.yPos > t.groundYPos then
      let r := Trex.reset t
      { r with jumpCount := r.jumpCount + 1 }
    else t
  Trex.update t deltaTime none

/-- `Trex.collisionBoxes` from src/index.js: the DUCKING set when ducking,
the RUNNING set otherwise (selection as in `checkForCollision`). -/
def Trex.collisionBoxesFor (ducking : Bool) : List CollisionBox :=
  if ducking then [⟨1, 18, 55, 25⟩]
  else [⟨22, 0, 17, 16⟩, ⟨1, 18, 30, 9⟩, ⟨10, 35, 14, 8⟩,
    ⟨1, 24, 29, 5⟩, ⟨5, 30, 21, 4⟩, ⟨9, 34, 15, 4⟩]

/-- `checkForCollision` from src/index.js, reduced to its Boolean result
(the source returns the first overlapping box pair, a truthy array, or
`false`; the unused local `obstacleBoxXPos` and the debug drawing are
omitted). -/
def checkForCollision (obstacle : ObstacleState) (tRex : TrexState) : Bool :=
  let tRexBox : CollisionBox :=
    ⟨tRex.xPos + 1, tRex.yPos + 1, Trex.WIDTH - 2, Trex.HEIGHT - 2⟩
  let obstacleBox : CollisionBox :=
    ⟨obstacle.xPos + 1, obstacle.yPos + 1,
      obstacle.typeConfig.width * (obstacle.size : ℚ) - 2,
      obstacle.typeConfig.height - 2⟩
  if boxCompare tRexBox obstacleBox = true then
    (Trex.collisionBoxesFor tRex.ducking).any fun tBox =>
      obstacle.collisionBoxes.any fun oBox =>
        boxCompare (createAdjustedCollisionBox tBox tRexBox)
          (createAdjustedCollisionBox oBox obstacleBox)
  else false

/-- `NightMode.config.FADE_SPEED` from src/index.js. -/
def NightMode.FADE_SPEED : ℚ := 0.035

/-- `NightMode.phases.length` from src/index.js (7 moon phases). -/
def NightMode.phasesLen : ℕ := 7

/-- Mutable state of the night-mode overlay.  The moon x position and the
star positions are omitted: they influence neither `opacity` nor
`currentPhase`. -/
structure NightModeState where
  currentPhase : ℕ
  opacity : ℚ
deriving DecidableEq

/-- The moon-phase advance at the top of `NightMode.prototype.update`:
`currentPhase++`, wrapping to 0 at `phases.length`, taken only when a fade
in starts from zero opacity. -/
def NightMode.phaseStep (s : NightModeState) (activated : Bool) : NightModeState :=
  if activated = true ∧ s.opacity = 0 then
    { s with
      currentPhase :=
        if s.currentPhase + 1 ≥ NightMode.phasesLen then 0 else s.currentPhase + 1 }
  else s

/-- The fade in / fade out opacity step of `NightMode.prototype.update`. -/
def NightMode.fadeStep (activated : Bool) (opacity : ℚ) : ℚ :=
  if activated = true ∧ (opacity < 1 ∨ opacity = 0) then opacity + NightMode.FADE_SPEED
  else if opacity > 0 then opacity - NightMode.FADE_SPEED
  else opacity

/-- `NightMode.prototype.update` from src/index.js, restricted to the phase
and opacity transitions (moon/star movement and drawing omitted).  The
final `else` branch of the source sets `opacity = 0`. -/
def NightMode.update (s : NightModeState) (activated : Bool) : NightModeState :=
  let s1 := NightMode.phaseStep s activated
  let op := NightMode.fadeStep activated s1.opacity
  if op > 0 then { s1 with opacity := op } else { s1 with opacity := 0 }

/-- `DistanceMeter.config.MAX_DISTANCE_UNITS` from src/index.js. -/
def DistanceMeter.MAX_DISTANCE_UNITS : ℕ := 5
/-- `DistanceMeter.config.ACHIEVEMENT_DISTANCE`. -/
def DistanceMeter.ACHIEVEMENT_DISTANCE : ℤ := 100
/-- `DistanceMeter.config.COEFFICIENT`. -/
def DistanceMeter.COEFFICIENT : ℚ := 0.025
/-- `DistanceMeter.config.FLASH_DURATION` (1000/4). -/
def DistanceMeter.FLASH_DURATION : ℚ := 250
/-- `DistanceMeter.config.FLASH_ITERATIONS`. -/
def DistanceMeter.FLASH_ITERATIONS : ℕ := 3

/-- Mutable state of the distance meter.  `acheivement` is spelled as in
the source.  The high-score fields are omitted (no claim touches them). -/
structure MeterState where
  maxScore : ℤ
  maxScoreUnits : ℕ
  acheivement : Bool
  flashTimer : ℚ
  flashIterations : ℕ
  digits : List ℕ
deriving DecidableEq

/-- State after the `DistanceMeter` constructor and `init`:
`maxScoreUnits = MAX_DISTANCE_UNITS` and `maxScore = 99999`. -/
def DistanceMeter.initState : MeterState :=
  { maxScore := 99999, maxScoreUnits := 5, acheivement := false,
    flashTimer := 0, flashIterations := 0, digits := List.replicate 5 0 }

/-- `DistanceMeter.prototype.getActualDistance`:
`distance ? Math.round(distance * COEFFICIENT) : 0`. -/
def DistanceMeter.getActualDistance (distance : ℚ) : ℤ :=
  if distance ≠ 0 then jsRound (distance * DistanceMeter.COEFFICIENT) else 0

/-- The digit string computation of `DistanceMeter.prototype.update`:
`(defaultString + distance).substr(-maxScoreUnits)`, where `defaultString`
is the five zeros fixed at `init`. -/
def DistanceMeter.digitsFor (d : ℤ) (units : ℕ) : List ℕ :=
  let s := List.replicate DistanceMeter.MAX_DISTANCE_UNITS 0 ++ (Nat.digits 10 d.toNat).reverse
  s.drop (s.length - units)

/-- `DistanceMeter.prototype.update` from src/index.js: returns the new
state, the `paint` flag (false while the flash is on its off half) and the
returned `playSound` flag.  The dead store `this.distance = 0` in the
source's else-branch and the drawing calls are omitted. -/
def DistanceMeter.update (s : MeterState) (deltaTime distance : ℚ) :
    MeterState × Bool × Bool :=
  if s.acheivement = false then
    let d := DistanceMeter.getActualDistance distance
    let s : MeterState :=
      if d > s.maxScore ∧ s.maxScoreUnits = DistanceMeter.MAX_DISTANCE_UNITS then
        { s with maxScoreUnits := s.maxScoreUnits + 1, maxScore := s.maxScore * 10 + 9 }
      else s
    if d > 0 then
      if d % DistanceMeter.ACHIEVEMENT_DISTANCE = 0 then
        ({ s with
           acheivement := true,
           flashTimer := 0,
           digits := DistanceMeter.digitsFor d s.maxScoreUnits }, true, true)
      else
        ({ s with digits := DistanceMeter.digitsFor d s.maxScoreUnits }, true, false)
    else
      ({ s with digits := List.replicate DistanceMeter.MAX_DISTANCE_UNITS 0 }, true, false)
  else
    if s.flashIterations ≤ DistanceMeter.FLASH_ITERATIONS then
      let ft := s.flashTimer + deltaTime
      if ft < DistanceMeter.FLASH_DURATION then
        ({ s with flashTimer := ft }, false, false)
      else if ft > DistanceMeter.FLASH_DURATION * 2 then
        ({ s with flashTimer := 0, flashIterations := s.flashIterations + 1 }, true, false)
      else
        ({ s with flashTimer := ft }, true, false)
    else
      ({ s with acheivement := false, flashIterations := 0, flashTimer := 0 }, true, false)

/-- `Runner.config.MAX_SPEED` from src/index.js. -/
def Runner.MAX_SPEED : ℚ := 13
/-- `Runner.config.ACCELERATION`. -/
def Runner.ACCELERATION : ℚ := 0.001
/-- `Runner.config.SPEED` (the base speed). -/
def Runner.SPEED : ℚ := 6
/-- `Runner.config.MAX_OBSTACLE_DUPLICATION`. -/
def Runner.MAX_OBSTACLE_DUPLICATION : ℕ := 2

/-- The `currentSpeed` transition of one playing tick
(`Runner.prototype.update`, lines 1131-1139): on a collision-free tick the
speed grows by ACCELERATION while below MAX_SPEED; on a collision tick
(`gameOver`) it is left unchanged. -/
def Runner.speedTick (collision : Bool) (s : ℚ) : ℚ :=
  if collision = false ∧ s < Runner.MAX_SPEED then s + Runner.ACCELERATION else s

/-- The speeds `currentSpeed` can reach: the constructor sets it to SPEED;
each playing tick applies `speedTick`; `restart` calls `setSpeed(SPEED)`
which (on a full-width viewport) sets it back to SPEED. -/
inductive Runner.ReachableSpeed : ℚ → Prop where
  | init : Runner.ReachableSpeed Runner.SPEED
  | tick (c : Bool) {s : ℚ} :
      Runner.ReachableSpeed s → Runner.ReachableSpeed (Runner.speedTick c s)
  | restart {s : ℚ} : Runner.ReachableSpeed s → Runner.ReachableSpeed Runner.SPEED

/-- The spawner state that `addNewObstacle` reads and writes.
`spawnedRev` is a ghost log of the types pushed to `this.obstacles`, most
recent first (the source pushes the new `Obstacle` at the end of the
array). -/
structure HorizonSpawnerState where
  obstacleHistory : List OTy
  spawnedRev : List OTy
deriving DecidableEq

/-- Spawner state after the `Horizon` constructor (`obstacleHistory = []`,
nothing spawned yet). -/
def Horizon.initSpawner : HorizonSpawnerState :=
  { obstacleHistory := [], spawnedRev := [] }

/-- `Horizon.prototype.duplicateObstacleCheck` from src/index.js: a left
fold over the history that counts the run of entries equal to
`nextObstacleType` ending at the last (oldest) slot. -/
def Horizon.duplicateObstacleCheck (history : List OTy) (nextObstacleType : OTy) : Bool :=
  decide (history.foldl (fun c ty => if ty = nextObstacleType then c + 1 else 0) 0 ≥
    Runner.MAX_OBSTACLE_DUPLICATION)

/-- The history maintenance in `addNewObstacle`: `unshift` the new type,
then `splice(MAX_OBSTACLE_DUPLICATION)` when more than one entry remains
(keep the first MAX_OBSTACLE_DUPLICATION entries). -/
def Horizon.historyAfterPush (history : List OTy) (ty : OTy) : List OTy :=
  let h := ty :: history
  if h.length > 1 then h.take Runner.MAX_OBSTACLE_DUPLICATION else h

/-- The state change of the accepting branch of `addNewObstacle`: push the
obstacle and update the duplication history. -/
def Horizon.pushObstacle (s : HorizonSpawnerState) (cfg : ObstacleTypeCfg) :
    HorizonSpawnerState :=
  { obstacleHistory := Horizon.historyAfterPush s.obstacleHistory cfg.name,
    spawnedRev := cfg.name :: s.spawnedRev }

/-- `Obstacle.types[i]` for the index produced by `getRandomNum(0, 2)`. -/
def obstacleTypeAt : Fin 3 → ObstacleTypeCfg
  | 0 => cactusSmallType
  | 1 => cactusLargeType
  | 2 => pterodactylType

/-- `Horizon.prototype.addNewObstacle` from src/index.js.  Each recursive
retry consumes one `getRandomNum(0, 2)` draw from `draws`; `none` means the
supplied draw sequence was exhausted without the recursion returning (the
call does not terminate within those draws).  On success the new state and
the unconsumed draws are returned. -/
def Horizon.addNewObstacle :
    List (Fin 3) → ℚ → HorizonSpawnerState → Option (HorizonSpawnerState × List (Fin 3))
  | [], _, _ => none
  | d :: rest, currentSpeed, s =>
    let obstacleType := obstacleTypeAt d
    if Horizon.duplicateObstacleCheck s.obstacleHistory obstacleType.name = true ∨
        currentSpeed < obstacleType.minSpeed then
      Horizon.addNewObstacle rest currentSpeed s
    else
      some (Horizon.pushObstacle s obstacleType, rest)

/-- A sequence of spawner invocations (each with its own draw sequence and
current speed), threading the spawner state; invocations whose draws run
out leave the state unchanged. -/
def Horizon.runSpawner :
    List (List (Fin 3) × ℚ) → HorizonSpawnerState → HorizonSpawnerState
  | [], s => s
  | (draws, speed) :: rest, s =>
    match Horizon.addNewObstacle draws speed s with
    | none => Horizon.runSpawner rest s
    | some (s1, _) => Horizon.runSpawner rest s1

/-- Spec-side overlap relation (claim C1's wording): two boxes overlap when
their x intervals intersect and their y intervals intersect. -/
def boxesOverlapSpec (a b : CollisionBox) : Prop :=
  a.x < b.x + b.width ∧ b.x < a.x + a.width ∧
  a.y < b.y + b.height ∧ b.y < a.y + a.height

instance (a b : CollisionBox) : Decidable (boxesOverlapSpec a b) := by
  unfold boxesOverlapSpec; infer_instance

/-- Translate a collision box into world coordinates by an owner position. -/
def translateBox (b : CollisionBox) (dx dy : ℚ) : CollisionBox :=
  ⟨b.x + dx, b.y + dy, b.width, b.height⟩

/-- Spec-side collision statement of claim C1: some T-rex collision box
(the DUCKING set when ducking, else the RUNNING set), translated by the
T-rex position, overlaps some obstacle collision box translated by the
obstacle position. -/
def trexObstacleOverlapSpec (obstacle : ObstacleState) (tRex : TrexState) : Prop :=
  ∃ tBox ∈ Trex.collisionBoxesFor tRex.ducking,
    ∃ oBox ∈ obstacle.collisionBoxes,
      boxesOverlapSpec (translateBox tBox tRex.xPos tRex.yPos)
        (translateBox oBox obstacle.xPos obstacle.yPos)

/-- The outer bounding-box pre-check of `checkForCollision`, stated
declaratively: the 1px-inset whole-sprite boxes overlap. -/
def outerBoundsOverlap (obstacle : ObstacleState) (tRex : TrexState) : Prop :=
  boxesOverlapSpec
    ⟨tRex.xPos + 1, tRex.yPos + 1, Trex.WIDTH - 2, Trex.HEIGHT - 2⟩
    ⟨obstacle.xPos + 1, obstacle.yPos + 1,
      obstacle.typeConfig.width * (obstacle.size : ℚ) - 2,
      obstacle.typeConfig.height - 2⟩

instance (obstacle : ObstacleState) (tRex : TrexState) :
    Decidable (trexObstacleOverlapSpec obstacle tRex) := by
  unfold trexObstacleOverlapSpec; infer_instance

instance (obstacle : ObstacleState) (tRex : TrexState) :
    Decidable (outerBoundsOverlap obstacle tRex) := by
  unfold outerBoundsOverlap; infer_instance

/-- A removed cactus obstacle, used as a concrete input. -/
def removedObstacleEx : ObstacleState :=
  { typeConfig := cactusSmallType, xPos := -20, yPos := 105, size := 1, width := 17,
    collisionBoxes := cactusSmallType.collisionBoxes, gap := 174, speedOffset := 0,
    currentFrame := 0, timer := 0, remove := true }

/-- C10: for every obstacle whose remove flag is set, and for all deltaTime
and speed arguments, `Obstacle.update` leaves every field of the obstacle
unchanged (`xPos`, `yPos`, `currentFrame`, `timer` and `remove` itself): a
removed obstacle is frozen until discarded. -/
theorem removed_obstacle_update_frozen (ob : ObstacleState) (deltaTime speed : ℚ)
    (h : ob.remove = true) : Obstacle.update ob deltaTime speed = ob := by
  simp [Obstacle.update, h]

/-- Witness for C10 at a concrete removed obstacle. -/
theorem removed_obstacle_update_frozen_witness :
    removedObstacleEx.remove = true ∧
    Obstacle.update removedObstacleEx 100 6 = removedObstacleEx :=
  ⟨rfl, removed_obstacle_update_frozen removedObstacleEx 100 6 rfl⟩

/-- Range of `getRandomNum`: for a draw in `[0,1)` the result lies in
`[min, max]` whenever `min ≤ max`. -/
theorem getRandomNum_range (min max : ℤ) (r : ℚ) (hle : min ≤ max)
    (h0 : 0 ≤ r) (h1 : r < 1) :
    min ≤ getRandomNum min max r ∧ getRandomNum min max r ≤ max := by
  unfold getRandomNum
  have hn : (0 : ℚ) < (max : ℚ) - (min : ℚ) + 1 := by
    have : (min : ℚ) ≤ (max : ℚ) := by exact_mod_cast hle
    linarith
  constructor
  · have : (0 : ℤ) ≤ ⌊r * ((max : ℚ) - (min : ℚ) + 1)⌋ :=
      Int.floor_nonneg.mpr (mul_nonneg h0 (le_of_lt hn))
    omega
  · have hlt : r * ((max : ℚ) - (min : ℚ) + 1) < (max : ℚ) - (min : ℚ) + 1 := by
      nlinarith
    have : ⌊r * ((max : ℚ) - (min : ℚ) + 1)⌋ < max - min + 1 := by
      rw [Int.floor_lt]
      push_cast
      linarith
    omega

/-- Surjectivity of `getRandomNum`: every value of `[min, max]` arises from
some draw in `[0,1)`. -/
theorem getRandomNum_surj (min max v : ℤ) (hlv : min ≤ v) (hvu : v ≤ max) :
    ∃ r : ℚ, 0 ≤ r ∧ r < 1 ∧ getRandomNum min max r = v := by
  have hn : (0 : ℚ) < (max : ℚ) - (min : ℚ) + 1 := by
    have : (min : ℚ) ≤ (max : ℚ) := by
      exact_mod_cast le_trans hlv hvu
    linarith
  refine ⟨((v : ℚ) - (min : ℚ)) / ((max : ℚ) - (min : ℚ) + 1), ?_, ?_, ?_⟩
  · apply div_nonneg _ (le_of_lt hn)
    have : (min : ℚ) ≤ (v : ℚ) := by exact_mod_cast hlv
    linarith
  · rw [div_lt_one hn]
    have : (v : ℚ) ≤ (max : ℚ) := by exact_mod_cast hvu
    linarith
  · unfold getRandomNum
    rw [div_mul_cancel₀ _ (ne_of_gt hn)]
    have : ((v - min : ℤ) : ℚ) = (v : ℚ) - (min : ℚ) := by push_cast; ring
    rw [← this, Int.floor_intCast]
    omega

/-- jsRound is nonnegative on nonnegative inputs. -/
theorem jsRound_nonneg (q : ℚ) (h : 0 ≤ q) : 0 ≤ jsRound q := by
  unfold jsRound
  exact Int.floor_nonneg.mpr (by linarith)

/-- jsRound is monotone. -/
theorem jsRound_mono (p q : ℚ) (h : p ≤ q) : jsRound p ≤ jsRound q := by
  unfold jsRound
  exact Int.floor_le_floor (by linarith)

/-- jsRound is the identity on integers. -/
theorem jsRound_intCast (n : ℤ) : jsRound (n : ℚ) = n := by
  unfold jsRound
  rw [Int.floor_int_add]
  norm_num

/-- C4: for every obstacle constructed at speed `speed` with final width
`width` and type minimum gap `minGapCfg`, the stored gap lies in
`[round(width*speed + minGapCfg*gapCoefficient), round(1.5 * round(...))]`
for every draw in `[0,1)`, and every value of that interval is produced by
some draw. -/
theorem spawn_gap_bounds (width minGapCfg gapCoefficient speed : ℚ)
    (hbase : 0 ≤ width * speed + minGapCfg * gapCoefficient) :
    (∀ r : ℚ, 0 ≤ r → r < 1 →
      jsRound (width * speed + minGapCfg * gapCoefficient) ≤
        Obstacle.getGap width minGapCfg gapCoefficient speed r ∧
      Obstacle.getGap width minGapCfg gapCoefficient speed r ≤
        jsRound ((jsRound (width * speed + minGapCfg * gapCoefficient) : ℚ) *
          MAX_GAP_COEFFICIENT)) ∧
    (∀ v : ℤ,
      jsRound (width * speed + minGapCfg * gapCoefficient) ≤ v →
      v ≤ jsRound ((jsRound (width * speed + minGapCfg * gapCoefficient) : ℚ) *
          MAX_GAP_COEFFICIENT) →
      ∃ r : ℚ, 0 ≤ r ∧ r < 1 ∧
        Obstacle.getGap width minGapCfg gapCoefficient speed r = v) := by
  have hm0 : 0 ≤ jsRound (width * speed + minGapCfg * gapCoefficient) :=
    jsRound_nonneg _ hbase
  have hle : jsRound (width * speed + minGapCfg * gapCoefficient) ≤
      jsRound ((jsRound (width * speed + minGapCfg * gapCoefficient) : ℚ) *
        MAX_GAP_COEFFICIENT) := by
    have h1 : ((jsRound (width * speed + minGapCfg * gapCoefficient) : ℤ) : ℚ) ≤
        (jsRound (width * speed + minGapCfg * gapCoefficient) : ℚ) * MAX_GAP_COEFFICIENT := by
      have : (0 : ℚ) ≤ (jsRound (width * speed + minGapCfg * gapCoefficient) : ℚ) := by
        exact_mod_cast hm0
      unfold MAX_GAP_COEFFICIENT
      nlinarith
    calc jsRound (width * speed + minGapCfg * gapCoefficient)
        = jsRound ((jsRound (width * speed + minGapCfg * gapCoefficient) : ℚ)) :=
          (jsRound_intCast _).symm
      _ ≤ _ := jsRound_mono _ _ h1
  constructor
  · intro r h0 h1
    simpa [Obstacle.getGap] using getRandomNum_range _ _ r hle h0 h1
  · intro v hv1 hv2
    obtain ⟨r, hr0, hr1, hr⟩ := getRandomNum_surj _ _ v hv1 hv2
    exact ⟨r, hr0, hr1, by simpa [Obstacle.getGap] using hr⟩

/-- Witness for C4 at the claim's concrete example: speed 6, type minGap
120, gapCoefficient 0.6, width 17 gives a gap in `[174, 261]`. -/
theorem spawn_gap_bounds_witness :
    (0 : ℚ) ≤ 17 * 6 + 120 * 0.6 ∧
    (174 ≤ Obstacle.getGap 17 120 0.6 6 0 ∧ Obstacle.getGap 17 120 0.6 6 0 ≤ 261) := by
  refine ⟨by norm_num, ?_⟩
  have h := (spawn_gap_bounds 17 120 0.6 6 (by norm_num)).1 0 le_rfl (by norm_num)
  have e1 : jsRound (17 * 6 + 120 * (0.6 : ℚ)) = 174 := by
    unfold jsRound; norm_num
  rw [e1] at h
  have e2 : jsRound (((174 : ℤ) : ℚ) * MAX_GAP_COEFFICIENT) = 261 := by
    unfold jsRound MAX_GAP_COEFFICIENT; norm_num
  rw [e2] at h
  exact h

/-- Every reachable speed has the shape SPEED + k * ACCELERATION with
k ≤ 7000 (so it never exceeds MAX_SPEED: the acceleration step divides
MAX_SPEED - SPEED exactly). -/
theorem reachableSpeed_shape (s : ℚ) (h : Runner.ReachableSpeed s) :
    ∃ k : ℕ, s = Runner.SPEED + (k : ℚ) * Runner.ACCELERATION ∧ k ≤ 7000 := by
  induction h with
  | init => exact ⟨0, by norm_num, by norm_num⟩
  | tick c h ih =>
    obtain ⟨k, hk, hk7⟩ := ih
    unfold Runner.speedTick
    split_ifs with hc
    · refine ⟨k + 1, by push_cast [hk]; ring, ?_⟩
      rcases hc with ⟨-, hlt⟩
      rw [hk] at hlt
      unfold Runner.SPEED Runner.ACCELERATION Runner.MAX_SPEED at hlt
      norm_num at hlt
      have hK : (k : ℚ) < 7000 := by nlinarith
      have : k < 7000 := by exact_mod_cast hK
      omega
    · exact ⟨k, hk, hk7⟩
  | restart h ih => exact ⟨0, by norm_num, by norm_num⟩

/-- C2: in every reachable game state `currentSpeed` is at most MAX_SPEED,
and a playing tick never decreases the speed. -/
theorem currentSpeed_capped_monotone :
    (∀ s : ℚ, Runner.ReachableSpeed s → s ≤ Runner.MAX_SPEED) ∧
    (∀ (c : Bool) (s : ℚ), s ≤ Runner.speedTick c s) := by
  constructor
  · intro s h
    obtain ⟨k, hk, hk7⟩ := reachableSpeed_shape s h
    rw [hk]
    unfold Runner.SPEED Runner.ACCELERATION Runner.MAX_SPEED
    have : (k : ℚ) ≤ 7000 := by exact_mod_cast hk7
    nlinarith
  · intro c s
    unfold Runner.speedTick
    split_ifs with hc
    · unfold Runner.ACCELERATION; linarith
    · exact le_rfl

/-- Witness for C2 at the initial speed. -/
theorem currentSpeed_capped_monotone_witness :
    Runner.SPEED ≤ Runner.MAX_SPEED ∧ Runner.SPEED ≤ Runner.speedTick false Runner.SPEED :=
  ⟨currentSpeed_capped_monotone.1 Runner.SPEED Runner.ReachableSpeed.init,
   currentSpeed_capped_monotone.2 false Runner.SPEED⟩

/-- Night-mode state after the `NightMode` constructor:
`currentPhase = 0`, `opacity = 0`. -/
def NightMode.initState : NightModeState := ⟨0, 0⟩

/-- The opacity after one night-mode update is the clamped fade step (the
phase advance never changes the opacity). -/
theorem nightmode_update_opacity (s : NightModeState) (activated : Bool) :
    (NightMode.update s activated).opacity =
    if NightMode.fadeStep activated s.opacity > 0 then
      NightMode.fadeStep activated s.opacity
    else 0 := by
  have hp : (NightMode.phaseStep s activated).opacity = s.opacity := by
    unfold NightMode.phaseStep
    split <;> rfl
  unfold NightMode.update
  simp only [hp]
  split <;> rfl

/-- The fade step constant as an explicit fraction. -/
theorem nightmode_fade_speed_eq : NightMode.FADE_SPEED = 7/200 := by
  unfold NightMode.FADE_SPEED
  norm_num

/-- After n consecutive activated updates from opacity 0 (n at most 29),
the opacity equals n * FADE_SPEED: each step is below 1 until the last. -/
theorem nightmode_iterate_opacity (n : ℕ) (hn : n ≤ 29) :
    ((fun s => NightMode.update s true)^[n] NightMode.initState).opacity =
    (n : ℚ) * (7/200) := by
  induction n with
  | zero => simp [NightMode.initState]
  | succ m ih =>
    have hm : m ≤ 29 := Nat.le_of_succ_le hn
    rw [Function.iterate_succ_apply', nightmode_update_opacity, ih hm]
    unfold NightMode.fadeStep
    rw [nightmode_fade_speed_eq]
    have hcast : (m : ℚ) ≤ 28 := by
      have h28 : m ≤ 28 := by omega
      exact_mod_cast h28
    have hm0 : (0 : ℚ) ≤ (m : ℚ) := Nat.cast_nonneg m
    have hlt : (m : ℚ) * (7/200) < 1 := by nlinarith
    have hpos : (0 : ℚ) < (m : ℚ) * (7/200) + 7/200 := by nlinarith
    have hc : true = true ∧ ((m : ℚ) * (7/200) < 1 ∨ (m : ℚ) * (7/200) = 0) :=
      ⟨rfl, Or.inl hlt⟩
    rw [if_pos hc, if_pos hpos]
    push_cast
    ring

/-- Counterexample to C8: starting from opacity 0, twenty-nine consecutive
activated updates drive the opacity to 203/200, strictly above 1 (the fade
loop has no upper clamp). -/
theorem nightmode_opacity_exceeds_one :
    ((fun s => NightMode.update s true)^[29] NightMode.initState).opacity > 1 := by
  rw [nightmode_iterate_opacity 29 le_rfl]
  norm_num

/-- One night-mode update keeps the opacity inside `[0, 1 + FADE_SPEED)`. -/
theorem nightmode_update_opacity_bounds (s : NightModeState) (activated : Bool)
    (h0 : 0 ≤ s.opacity) (h1 : s.opacity < 1 + NightMode.FADE_SPEED) :
    0 ≤ (NightMode.update s activated).opacity ∧
    (NightMode.update s activated).opacity < 1 + NightMode.FADE_SPEED := by
  rw [nightmode_update_opacity]
  unfold NightMode.fadeStep
  rw [nightmode_fade_speed_eq] at h1 ⊢
  split_ifs with hc1 hc2 <;> constructor <;>
    first
      | linarith
      | (rcases hc1 with ⟨-, hd | hd⟩ <;> linarith)

/-- C8 (amended): across every sequence of night-mode updates from the
initial state, the opacity stays in `[0, 1 + FADE_SPEED)` after every call
(the lower end is clamped to 0; the upper end can overshoot 1 by strictly
less than one fade step). -/
theorem nightmode_opacity_bounds (acts : List Bool) :
    0 ≤ (acts.foldl NightMode.update NightMode.initState).opacity ∧
    (acts.foldl NightMode.update NightMode.initState).opacity < 1 + NightMode.FADE_SPEED := by
  have main : ∀ (l : List Bool) (s : NightModeState),
      0 ≤ s.opacity → s.opacity < 1 + NightMode.FADE_SPEED →
      0 ≤ (l.foldl NightMode.update s).opacity ∧
      (l.foldl NightMode.update s).opacity < 1 + NightMode.FADE_SPEED := by
    intro l
    induction l with
    | nil => intro s h0 h1; exact ⟨h0, h1⟩
    | cons a l ih =>
      intro s h0 h1
      obtain ⟨g0, g1⟩ := nightmode_update_opacity_bounds s a h0 h1
      exact ih _ g0 g1
  exact main acts NightMode.initState le_rfl (by norm_num [NightMode.initState, NightMode.FADE_SPEED])

/-- The meter state after one update with raw distance 4000040 (real
distance 100001, the first crossing of the 5-digit range). -/
def meterAfterFirstCross : MeterState :=
  (DistanceMeter.update DistanceMeter.initState 0 4000040).1

/-- Real distance of raw 4000040 is 100001. -/
theorem actualDistance_4000040 : DistanceMeter.getActualDistance 4000040 = 100001 := by
  unfold DistanceMeter.getActualDistance DistanceMeter.COEFFICIENT jsRound
  norm_num

/-- Real distance of raw 40000040 is 1000001. -/
theorem actualDistance_40000040 : DistanceMeter.getActualDistance 40000040 = 1000001 := by
  unfold DistanceMeter.getActualDistance DistanceMeter.COEFFICIENT jsRound
  norm_num

/-- Evaluation of the first crossing: the digit width grows to 6 and the
representable maximum becomes 999999. -/
theorem meterAfterFirstCross_eq :
    meterAfterFirstCross =
    { maxScore := 999999, maxScoreUnits := 6, acheivement := false,
      flashTimer := 0, flashIterations := 0,
      digits := DistanceMeter.digitsFor 100001 6 } := by
  unfold meterAfterFirstCross DistanceMeter.update
  rw [show DistanceMeter.initState.acheivement = false from rfl]
  simp only [DistanceMeter.initState, actualDistance_4000040]
  norm_num [DistanceMeter.MAX_DISTANCE_UNITS, DistanceMeter.ACHIEVEMENT_DISTANCE]

/-- Counterexample to C6: the real distance 1000001 crosses the 6-digit
maximum 999999, yet the digit width stays at 6 (the growth branch requires
maxScoreUnits to still equal MAX_DISTANCE_UNITS, so only the first
crossing widens the meter). -/
theorem maxScoreUnits_no_second_growth :
    DistanceMeter.getActualDistance 40000040 > meterAfterFirstCross.maxScore ∧
    meterAfterFirstCross.maxScoreUnits = 6 ∧
    (DistanceMeter.update meterAfterFirstCross 0 40000040).1.maxScoreUnits = 6 := by
  rw [meterAfterFirstCross_eq, actualDistance_40000040]
  refine ⟨by norm_num, rfl, ?_⟩
  unfold DistanceMeter.update
  simp only [actualDistance_40000040]
  norm_num [DistanceMeter.MAX_DISTANCE_UNITS, DistanceMeter.ACHIEVEMENT_DISTANCE]

/-- C6 (amended): across every update, the digit width never decreases,
and it increases (by one) exactly when the meter is not flashing, the real
distance exceeds the current representable maximum, and the width still
equals the initial MAX_DISTANCE_UNITS - i.e. only the first boundary
crossing grows it. -/
theorem maxScoreUnits_growth (s : MeterState) (deltaTime distance : ℚ) :
    (DistanceMeter.update s deltaTime distance).1.maxScoreUnits =
      (if s.acheivement = false ∧
          DistanceMeter.getActualDistance distance > s.maxScore ∧
          s.maxScoreUnits = DistanceMeter.MAX_DISTANCE_UNITS
       then s.maxScoreUnits + 1 else s.maxScoreUnits) ∧
    s.maxScoreUnits ≤ (DistanceMeter.update s deltaTime distance).1.maxScoreUnits := by
  have hite : ∀ (c : Prop) (inst : Decidable c) (a b : MeterState × Bool × Bool),
      (if c then a else b).1.maxScoreUnits =
      if c then a.1.maxScoreUnits else b.1.maxScoreUnits := by
    intro c inst a b
    split <;> rfl
  have hite2 : ∀ (c : Prop) (inst : Decidable c) (a b : MeterState),
      (if c then a else b).maxScoreUnits =
      if c then a.maxScoreUnits else b.maxScoreUnits := by
    intro c inst a b
    split <;> rfl
  unfold DistanceMeter.update
  simp only [hite, hite2]
  split_ifs <;>
    first
      | (constructor <;> omega)
      | (exact absurd rfl (by tauto))
      | (constructor <;> first | rfl | omega | tauto)

/-- The meter state after one update with raw distance 160000 (real
distance 4000, a positive multiple of ACHIEVEMENT_DISTANCE): the
achievement flash is newly entered. -/
def meterFlashEntered : MeterState :=
  (DistanceMeter.update DistanceMeter.initState 0 160000).1

/-- Real distance of raw 160000 is 4000. -/
theorem actualDistance_160000 : DistanceMeter.getActualDistance 160000 = 4000 := by
  unfold DistanceMeter.getActualDistance DistanceMeter.COEFFICIENT jsRound
  norm_num

/-- Evaluation of the flash entry state. -/
theorem meterFlashEntered_eq :
    meterFlashEntered =
    { maxScore := 99999, maxScoreUnits := 5, acheivement := true,
      flashTimer := 0, flashIterations := 0,
      digits := DistanceMeter.digitsFor 4000 5 } := by
  unfold meterFlashEntered DistanceMeter.update
  rw [show DistanceMeter.initState.acheivement = false from rfl]
  simp only [DistanceMeter.initState, actualDistance_160000]
  norm_num [DistanceMeter.MAX_DISTANCE_UNITS, DistanceMeter.ACHIEVEMENT_DISTANCE]

/-- One flash cycle: an update with deltaTime 501 (more than two
FLASH_DURATION intervals) taken from a zeroed flash timer completes one
on/off cycle, incrementing flashIterations and keeping the flag set. -/
theorem flash_cycle_step (s : MeterState) (d : ℚ) (ha : s.acheivement = true)
    (hi : s.flashIterations ≤ DistanceMeter.FLASH_ITERATIONS) (ht : s.flashTimer = 0) :
    DistanceMeter.update s 501 d =
    ({ s with flashTimer := 0, flashIterations := s.flashIterations + 1 }, true, false) := by
  unfold DistanceMeter.update
  rw [ha, ht, if_neg (by simp), if_pos hi]
  norm_num [DistanceMeter.FLASH_DURATION]

/-- One application of a 501ms flash cycle. -/
def meterFlashCycle (s : MeterState) : MeterState := (DistanceMeter.update s 501 0).1

/-- Counterexample to C7: after the achievement state is newly entered and
FLASH_ITERATIONS (= 3) complete on/off cycles have elapsed, the flag is
still set and a further update still suppresses painting: the loop bound
`flashIterations <= FLASH_ITERATIONS` runs FLASH_ITERATIONS + 1 cycles. -/
theorem flash_outlasts_three_cycles :
    meterFlashEntered.acheivement = true ∧
    meterFlashEntered.flashIterations = 0 ∧
    (meterFlashCycle (meterFlashCycle (meterFlashCycle meterFlashEntered))).acheivement
      = true ∧
    (DistanceMeter.update
      (meterFlashCycle (meterFlashCycle (meterFlashCycle meterFlashEntered))) 100 0).2.1
      = false := by
  have e1 : meterFlashCycle meterFlashEntered =
      { maxScore := 99999, maxScoreUnits := 5, acheivement := true,
        flashTimer := 0, flashIterations := 1,
        digits := DistanceMeter.digitsFor 4000 5 } := by
    unfold meterFlashCycle
    rw [meterFlashEntered_eq, flash_cycle_step _ _ rfl (by decide) rfl]
  have e2 : meterFlashCycle (meterFlashCycle meterFlashEntered) =
      { maxScore := 99999, maxScoreUnits := 5, acheivement := true,
        flashTimer := 0, flashIterations := 2,
        digits := DistanceMeter.digitsFor 4000 5 } := by
    rw [e1]
    unfold meterFlashCycle
    rw [flash_cycle_step _ _ rfl (by decide) rfl]
  have e3 : meterFlashCycle (meterFlashCycle (meterFlashCycle meterFlashEntered)) =
      { maxScore := 99999, maxScoreUnits := 5, acheivement := true,
        flashTimer := 0, flashIterations := 3,
        digits := DistanceMeter.digitsFor 4000 5 } := by
    rw [e2]
    unfold meterFlashCycle
    rw [flash_cycle_step _ _ rfl (by decide) rfl]
  refine ⟨by rw [meterFlashEntered_eq], by rw [meterFlashEntered_eq], by rw [e3], ?_⟩
  rw [e3]
  unfold DistanceMeter.update
  rw [if_neg (by simp), if_pos (by norm_num [DistanceMeter.FLASH_ITERATIONS])]
  norm_num [DistanceMeter.FLASH_DURATION]

/-- C7 (amended): while the achievement flag is set, an update with
`flashIterations` still at most FLASH_ITERATIONS keeps the flag set,
suppresses painting exactly while the accumulated flash timer is below
FLASH_DURATION, and completes a cycle (incrementing flashIterations)
exactly when the timer passes two FLASH_DURATION intervals - so the flash
spans FLASH_ITERATIONS + 1 full cycles; once `flashIterations` exceeds
FLASH_ITERATIONS, the next update clears the flag and resets the
counters. -/
theorem flash_duration_characterization (s : MeterState) (deltaTime distance : ℚ)
    (h : s.acheivement = true) :
    (s.flashIterations > DistanceMeter.FLASH_ITERATIONS →
      ((DistanceMeter.update s deltaTime distance).1.acheivement = false ∧
       (DistanceMeter.update s deltaTime distance).1.flashIterations = 0 ∧
       (DistanceMeter.update s deltaTime distance).1.flashTimer = 0)) ∧
    (s.flashIterations ≤ DistanceMeter.FLASH_ITERATIONS →
      ((DistanceMeter.update s deltaTime distance).1.acheivement = true ∧
       ((DistanceMeter.update s deltaTime distance).2.1 = false ↔
         s.flashTimer + deltaTime < DistanceMeter.FLASH_DURATION) ∧
       (DistanceMeter.update s deltaTime distance).1.flashIterations =
         (if s.flashTimer + deltaTime > DistanceMeter.FLASH_DURATION * 2
          then s.flashIterations + 1 else s.flashIterations))) := by
  have hdur : DistanceMeter.FLASH_DURATION = 250 := rfl
  unfold DistanceMeter.update
  rw [if_neg (by simp [h])]
  constructor
  · intro hgt
    rw [if_neg (by omega)]
    exact ⟨rfl, rfl, rfl⟩
  · intro hle
    rw [if_pos hle]
    dsimp only
    by_cases h1 : s.flashTimer + deltaTime < DistanceMeter.FLASH_DURATION
    · rw [if_pos h1, if_neg (by rw [hdur] at h1 ⊢; linarith)]
      exact ⟨h, by simp [h1], rfl⟩
    · rw [if_neg h1]
      by_cases h2 : s.flashTimer + deltaTime > DistanceMeter.FLASH_DURATION * 2
      · rw [if_pos h2, if_pos h2]
        exact ⟨h, by simp [h1], rfl⟩
      · rw [if_neg h2, if_neg h2]
        exact ⟨h, by simp [h1], rfl⟩

/-- Witness for C7's characterization at the concrete flash-entry state. -/
theorem flash_duration_characterization_witness :
    meterFlashEntered.acheivement = true ∧
    ((meterFlashEntered.flashIterations > DistanceMeter.FLASH_ITERATIONS →
      ((DistanceMeter.update meterFlashEntered 501 0).1.acheivement = false ∧
       (DistanceMeter.update meterFlashEntered 501 0).1.flashIterations = 0 ∧
       (DistanceMeter.update meterFlashEntered 501 0).1.flashTimer = 0)) ∧
     (meterFlashEntered.flashIterations ≤ DistanceMeter.FLASH_ITERATIONS →
      ((DistanceMeter.update meterFlashEntered 501 0).1.acheivement = true ∧
       ((DistanceMeter.update meterFlashEntered 501 0).2.1 = false ↔
         meterFlashEntered.flashTimer + 501 < DistanceMeter.FLASH_DURATION) ∧
       (DistanceMeter.update meterFlashEntered 501 0).1.flashIterations =
         (if meterFlashEntered.flashTimer + 501 > DistanceMeter.FLASH_DURATION * 2
          then meterFlashEntered.flashIterations + 1
          else meterFlashEntered.flashIterations)))) :=
  ⟨by rw [meterFlashEntered_eq],
   flash_duration_characterization meterFlashEntered 501 0 (by rw [meterFlashEntered_eq])⟩

/-- Whether a list of obstacle types contains three consecutive equal
entries (a run longer than MAX_OBSTACLE_DUPLICATION = 2). -/
def hasTripleRun : List OTy → Bool
  | a :: b :: c :: rest => (decide (a = b) && decide (b = c)) || hasTripleRun (b :: c :: rest)
  | _ => false

/-- hasTripleRun detects exactly the presence of a three-long constant
infix. -/
theorem hasTripleRun_iff (l : List OTy) :
    hasTripleRun l = true ↔ ∃ a : OTy, [a, a, a] <:+: l := by
  induction l with
  | nil => simp [hasTripleRun]
  | cons a tail ih =>
    match tail with
    | [] =>
      simp only [hasTripleRun]
      constructor
      · intro h; exact absurd h (by simp)
      · rintro ⟨x, h⟩
        have := h.length_le
        simp at this
    | [b] =>
      simp only [hasTripleRun]
      constructor
      · intro h; exact absurd h (by simp)
      · rintro ⟨x, h⟩
        have := h.length_le
        simp at this
    | b :: c :: rest =>
      simp only [hasTripleRun, Bool.or_eq_true, Bool.and_eq_true, decide_eq_true_eq]
      constructor
      · rintro (⟨rfl, rfl⟩ | h)
        · exact ⟨a, ⟨[], rest, rfl⟩⟩
        · obtain ⟨x, hx⟩ := (ih).mp (by simpa [hasTripleRun] using h)
          exact ⟨x, List.infix_cons_iff.mpr (Or.inr hx)⟩
      · rintro ⟨x, hx⟩
        rcases List.infix_cons_iff.mp hx with hpre | hinf
        · obtain ⟨h1, hpre⟩ := List.cons_prefix_cons.mp hpre
          obtain ⟨h2, hpre⟩ := List.cons_prefix_cons.mp hpre
          obtain ⟨h3, -⟩ := List.cons_prefix_cons.mp hpre
          exact Or.inl ⟨h1 ▸ h2.symm ▸ rfl, h2 ▸ h3.symm ▸ rfl⟩
        · exact Or.inr ((ih).mpr ⟨x, hinf⟩)

/-- hasTripleRun is invariant under list reversal. -/
theorem hasTripleRun_reverse (l : List OTy) :
    hasTripleRun l.reverse = hasTripleRun l := by
  cases e1 : hasTripleRun l.reverse <;> cases e2 : hasTripleRun l <;> try rfl
  · exfalso
    obtain ⟨x, hx⟩ := (hasTripleRun_iff l).mp e2
    have hx2 : [x, x, x] <:+: l.reverse := by
      simpa using List.reverse_infix.mpr hx
    have := (hasTripleRun_iff l.reverse).mpr ⟨x, hx2⟩
    simp [this] at e1
  · exfalso
    obtain ⟨x, hx⟩ := (hasTripleRun_iff l.reverse).mp e1
    have hx2 : [x, x, x] <:+: l := by
      have h3 := List.reverse_infix.mpr hx
      simpa using h3
    have := (hasTripleRun_iff l).mpr ⟨x, hx2⟩
    simp [this] at e2

/-- duplicateObstacleCheck on a history of at most two entries fires
exactly when both entries equal the candidate type. -/
theorem duplicateCheck_iff (h : List OTy) (t : OTy) (hl : h.length ≤ 2) :
    Horizon.duplicateObstacleCheck h t = true ↔ h = [t, t] := by
  rcases h with - | ⟨a, h2⟩
  · simp [Horizon.duplicateObstacleCheck, Runner.MAX_OBSTACLE_DUPLICATION]
  rcases h2 with - | ⟨b, h3⟩
  · by_cases ha : a = t <;>
      simp [Horizon.duplicateObstacleCheck, Runner.MAX_OBSTACLE_DUPLICATION, ha]
  rcases h3 with - | ⟨c, rest⟩
  · by_cases ha : a = t <;> by_cases hb : b = t <;>
      simp [Horizon.duplicateObstacleCheck, Runner.MAX_OBSTACLE_DUPLICATION, ha, hb]
  · simp at hl

/-- The spawner's history maintenance keeps the two most recent types. -/
theorem historyAfterPush_eq (h : List OTy) (t : OTy) :
    Horizon.historyAfterPush h t = (t :: h).take 2 := by
  unfold Horizon.historyAfterPush Runner.MAX_OBSTACLE_DUPLICATION
  rcases h with - | ⟨a, h2⟩
  · simp
  · simp [List.take]

/-- Invariant of the spawner state: the duplication history holds the two
most recent spawned types, and the spawn log has no three-long constant
run. -/
def SpawnerInv (s : HorizonSpawnerState) : Prop :=
  s.obstacleHistory = s.spawnedRev.take 2 ∧ ∀ a : OTy, ¬ [a, a, a] <:+: s.spawnedRev

/-- Accepting a non-duplicate push preserves the spawner invariant. -/
theorem pushObstacle_inv (s : HorizonSpawnerState) (cfg : ObstacleTypeCfg)
    (hinv : SpawnerInv s)
    (hdup : Horizon.duplicateObstacleCheck s.obstacleHistory cfg.name = false) :
    SpawnerInv (Horizon.pushObstacle s cfg) := by
  obtain ⟨hhist, htri⟩ := hinv
  constructor
  · show Horizon.historyAfterPush s.obstacleHistory cfg.name =
      (cfg.name :: s.spawnedRev).take 2
    rw [historyAfterPush_eq, hhist]
    rcases s.spawnedRev with - | ⟨x, l⟩ <;> simp [List.take]
  · intro a hinf
    rcases List.infix_cons_iff.mp hinf with hpre | hinf2
    · obtain ⟨h1, hpre⟩ := List.cons_prefix_cons.mp hpre
      obtain ⟨rest, hrest⟩ := hpre
      have hh : s.obstacleHistory = [cfg.name, cfg.name] := by
        rw [hhist, ← hrest, ← h1]
        simp [List.take]
      have htrue : Horizon.duplicateObstacleCheck s.obstacleHistory cfg.name = true := by
        rw [hh]
        exact (duplicateCheck_iff _ _ (by simp)).mpr rfl
      rw [htrue] at hdup
      exact Bool.noConfusion hdup
    · exact htri a hinf2

/-- A successful addNewObstacle call performs exactly one accepted push
(the rejected retries leave the state untouched), preserving the
invariant. -/
theorem addNewObstacle_inv (draws : List (Fin 3)) (speed : ℚ)
    (s s1 : HorizonSpawnerState) (rest : List (Fin 3)) (hinv : SpawnerInv s)
    (h : Horizon.addNewObstacle draws speed s = some (s1, rest)) : SpawnerInv s1 := by
  induction draws generalizing rest with
  | nil => simp [Horizon.addNewObstacle] at h
  | cons d ds ih =>
    simp only [Horizon.addNewObstacle] at h
    split at h
    · exact ih rest h
    · rename_i hcond
      push_neg at hcond
      obtain ⟨hd, -⟩ := hcond
      obtain ⟨rfl, -⟩ : Horizon.pushObstacle s (obstacleTypeAt d) = s1 ∧ ds = rest := by
        constructor <;> injection h with h1 <;> injection h1
      exact pushObstacle_inv s (obstacleTypeAt d) hinv (by simpa using hd)

/-- Any sequence of spawner invocations preserves the invariant. -/
theorem runSpawner_inv (invs : List (List (Fin 3) × ℚ)) (s : HorizonSpawnerState)
    (hinv : SpawnerInv s) : SpawnerInv (Horizon.runSpawner invs s) := by
  induction invs generalizing s with
  | nil => exact hinv
  | cons p rest ih =>
    rcases p with ⟨draws, speed⟩
    simp only [Horizon.runSpawner]
    cases hm : Horizon.addNewObstacle draws speed s with
    | none => exact ih s hinv
    | some pr =>
      rcases pr with ⟨s1, rem⟩
      exact ih s1 (addNewObstacle_inv draws speed s s1 rem hinv hm)

/-- C3: for every random draw sequence and every sequence of spawner
invocations from the initial horizon state, the chronological sequence of
obstacle types pushed by addNewObstacle never contains a run of more than
MAX_OBSTACLE_DUPLICATION (= 2) consecutive identical types. -/
theorem spawned_types_no_long_run (invs : List (List (Fin 3) × ℚ)) :
    hasTripleRun ((Horizon.runSpawner invs Horizon.initSpawner).spawnedRev.reverse) = false := by
  have hinv : SpawnerInv Horizon.initSpawner := by
    constructor
    · rfl
    · intro a h
      have := h.length_le
      simp [Horizon.initSpawner] at this
  obtain ⟨-, htri⟩ := runSpawner_inv invs Horizon.initSpawner hinv
  rw [hasTripleRun_reverse]
  cases e : hasTripleRun (Horizon.runSpawner invs Horizon.initSpawner).spawnedRev
  · rfl
  · obtain ⟨x, hx⟩ := (hasTripleRun_iff _).mp e
    exact absurd hx (htri x)

/-- Counterexample to C5: at currentSpeed 6 the speed floor is satisfied by
CACTUS_SMALL (minSpeed 0), yet the draw stream that always selects the
PTERODACTYL (minSpeed 8.5 > 6) makes addNewObstacle reject and retry
forever: no finite draw prefix ever returns. -/
theorem addNewObstacle_can_recurse_forever :
    (cactusSmallType ∈ obstacleTypes ∧ ¬ (6 : ℚ) < cactusSmallType.minSpeed) ∧
    ∀ n : ℕ, Horizon.addNewObstacle (List.replicate n 2) 6 Horizon.initSpawner = none := by
  refine ⟨⟨by simp [obstacleTypes], by norm_num [cactusSmallType]⟩, ?_⟩
  intro n
  induction n with
  | zero => rfl
  | succ m ih =>
    rw [List.replicate_succ]
    simp only [Horizon.addNewObstacle]
    rw [if_pos (Or.inr (by norm_num [obstacleTypeAt, pterodactylType]))]
    exact ih

/-- C5 (amended): a call to addNewObstacle returns exactly when the draw
sequence contains some draw whose type passes both the duplication check
and the speed floor; with an adversarial (or endlessly unlucky) draw
stream the reject-and-retry recursion never returns, even when a
speed-eligible table entry exists. -/
theorem addNewObstacle_isSome_iff (draws : List (Fin 3)) (speed : ℚ)
    (s : HorizonSpawnerState) :
    (Horizon.addNewObstacle draws speed s).isSome = true ↔
    ∃ d ∈ draws,
      Horizon.duplicateObstacleCheck s.obstacleHistory (obstacleTypeAt d).name = false ∧
      ¬ speed < (obstacleTypeAt d).minSpeed := by
  induction draws with
  | nil => simp [Horizon.addNewObstacle]
  | cons d ds ih =>
    simp only [Horizon.addNewObstacle]
    split_ifs with hc
    · rw [ih]
      constructor
      · rintro ⟨e, he, hok⟩
        exact ⟨e, List.mem_cons_of_mem _ he, hok⟩
      · rintro ⟨e, he, hok⟩
        rcases List.mem_cons.mp he with rfl | he2
        · rcases hc with hc | hc
          · rw [hok.1] at hc
            exact Bool.noConfusion hc
          · exact absurd hc hok.2
        · exact ⟨e, he2, hok⟩
    · push_neg at hc
      simp only [Option.isSome_some, true_iff]
      exact ⟨d, List.mem_cons_self d ds, by simpa using hc.1, not_lt.mpr hc.2⟩

/-- boxCompare decides exactly the spec-side overlap relation. -/
theorem boxCompare_eq_true_iff (a b : CollisionBox) :
    boxCompare a b = true ↔ boxesOverlapSpec a b := by
  unfold boxCompare boxesOverlapSpec
  rw [decide_eq_true_eq]
  constructor <;> rintro ⟨g1, g2, g3, g4⟩ <;>
    exact ⟨g1, by linarith, g3, by linarith⟩

/-- The source adjusts both boxes by its owner position plus the one-pixel
border inset; the inset cancels, so a pair of adjusted boxes overlaps
exactly when the claim's position-translated boxes overlap. -/
theorem boxCompare_adjusted_iff (tb cb : CollisionBox) (tx ty ox oy w1 h1 w2 h2 : ℚ) :
    boxCompare (createAdjustedCollisionBox tb ⟨tx + 1, ty + 1, w1, h1⟩)
      (createAdjustedCollisionBox cb ⟨ox + 1, oy + 1, w2, h2⟩) = true ↔
    boxesOverlapSpec (translateBox tb tx ty) (translateBox cb ox oy) := by
  rw [boxCompare_eq_true_iff]
  unfold createAdjustedCollisionBox translateBox boxesOverlapSpec
  dsimp only
  constructor <;> rintro ⟨g1, g2, g3, g4⟩ <;>
    exact ⟨by linarith, by linarith, by linarith, by linarith⟩

/-- C1 (amended): checkForCollision reports a collision exactly when the
outer 1px-inset bounding boxes overlap AND some T-rex collision box
(DUCKING set when ducking, RUNNING set otherwise) overlaps some obstacle
collision box in world coordinates on both axes.  The outer pre-check is
part of the observable behaviour: it can veto a real inner-box overlap
because the DUCKING box (width 55) extends beyond the outer box built from
config WIDTH (44). -/
theorem checkForCollision_iff (obstacle : ObstacleState) (tRex : TrexState) :
    checkForCollision obstacle tRex = true ↔
    (outerBoundsOverlap obstacle tRex ∧ trexObstacleOverlapSpec obstacle tRex) := by
  unfold checkForCollision
  dsimp only
  split_ifs with hout
  · rw [boxCompare_eq_true_iff] at hout
    simp only [List.any_eq_true]
    constructor
    · rintro ⟨tb, htb, cb, hcb, hp⟩
      exact ⟨hout, tb, htb, cb, hcb, (boxCompare_adjusted_iff tb cb _ _ _ _ _ _ _ _).mp hp⟩
    · rintro ⟨-, tb, htb, cb, hcb, hp⟩
      exact ⟨tb, htb, cb, hcb, (boxCompare_adjusted_iff tb cb _ _ _ _ _ _ _ _).mpr hp⟩
  · rw [boxCompare_eq_true_iff] at hout
    constructor
    · intro hfalse
      exact hfalse.elim
    · rintro ⟨houter, -⟩
      exact absurd houter hout

/-- A ducking T-rex standing on the ground at the running x position. -/
def duckingTrexEx : TrexState :=
  { xPos := 50, yPos := 93, groundYPos := 93, minJumpHeight := 63, jumpVelocity := 0,
    timer := 0, msPerFrame := 1000/8, currentFrame := 0, animFramesLen := 2,
    jumpCount := 1, status := .DUCKING, jumping := false, ducking := true,
    speedDrop := false, reachedMinHeight := false, playingIntro := false,
    midair := false }

/-- A size-1 small cactus just ahead of the ducking T-rex. -/
def cactusSmallObstacleEx : ObstacleState :=
  { typeConfig := cactusSmallType, xPos := 93, yPos := 105, size := 1, width := 17,
    collisionBoxes := cactusSmallType.collisionBoxes, gap := 174, speedOffset := 0,
    currentFrame := 0, timer := 0, remove := false }

/-- Counterexample to C1: the ducking T-rex's collision box overlaps the
cactus collision box in world coordinates on both axes, yet
checkForCollision reports no collision - the outer bounding-box pre-check
(width 44 - 2) cuts off the DUCKING box (width 55) before the detailed
pass. -/
theorem checkForCollision_misses_overlap :
    trexObstacleOverlapSpec cactusSmallObstacleEx duckingTrexEx ∧
    checkForCollision cactusSmallObstacleEx duckingTrexEx = false := by
  constructor
  · refine ⟨⟨1, 18, 55, 25⟩, ?_, ⟨4, 0, 6, 34⟩, ?_, ?_⟩
    · simp [Trex.collisionBoxesFor, duckingTrexEx]
    · simp [cactusSmallObstacleEx, cactusSmallType]
    · unfold boxesOverlapSpec translateBox duckingTrexEx cactusSmallObstacleEx
      norm_num
  · have hneg : boxCompare
        ⟨duckingTrexEx.xPos + 1, duckingTrexEx.yPos + 1, Trex.WIDTH - 2, Trex.HEIGHT - 2⟩
        ⟨cactusSmallObstacleEx.xPos + 1, cactusSmallObstacleEx.yPos + 1,
          cactusSmallObstacleEx.typeConfig.width * (cactusSmallObstacleEx.size : ℚ) - 2,
          cactusSmallObstacleEx.typeConfig.height - 2⟩ = false := by
      unfold boxCompare duckingTrexEx cactusSmallObstacleEx cactusSmallType
        Trex.WIDTH Trex.HEIGHT
      norm_num
    unfold checkForCollision
    dsimp only
    rw [hneg]
    simp

/-- updateStatusPart never changes the y position. -/
theorem usp_yPos (t : TrexState) (dt : ℚ) (o : Option TrexStatus) :
    (Trex.updateStatusPart t dt o).yPos = t.yPos := by
  unfold Trex.updateStatusPart
  cases o <;> dsimp only <;> split_ifs <;> rfl

/-- updateStatusPart never changes the ground position. -/
theorem usp_groundYPos (t : TrexState) (dt : ℚ) (o : Option TrexStatus) :
    (Trex.updateStatusPart t dt o).groundYPos = t.groundYPos := by
  unfold Trex.updateStatusPart
  cases o <;> dsimp only <;> split_ifs <;> rfl

/-- updateStatusPart never changes the speed-drop flag. -/
theorem usp_speedDrop (t : TrexState) (dt : ℚ) (o : Option TrexStatus) :
    (Trex.updateStatusPart t dt o).speedDrop = t.speedDrop := by
  unfold Trex.updateStatusPart
  cases o <;> dsimp only <;> split_ifs <;> rfl

/-- updateStatusPart never changes the jumping flag. -/
theorem usp_jumping (t : TrexState) (dt : ℚ) (o : Option TrexStatus) :
    (Trex.updateStatusPart t dt o).jumping = t.jumping := by
  unfold Trex.updateStatusPart
  cases o <;> dsimp only <;> split_ifs <;> rfl

/-- updateStatusPart never changes the jump counter. -/
theorem usp_jumpCount (t : TrexState) (dt : ℚ) (o : Option TrexStatus) :
    (Trex.updateStatusPart t dt o).jumpCount = t.jumpCount := by
  unfold Trex.updateStatusPart
  cases o <;> dsimp only <;> split_ifs <;> rfl

/-- updateStatusPart sets the status to the requested one when given. -/
theorem usp_status (t : TrexState) (dt : ℚ) (o : Option TrexStatus) :
    (Trex.updateStatusPart t dt o).status = o.getD t.status := by
  unfold Trex.updateStatusPart
  cases o <;> dsimp only [Option.getD] <;> split_ifs <;> rfl

/-- Trex.update never changes the y position. -/
theorem trex_update_yPos (t : TrexState) (dt : ℚ) (o : Option TrexStatus) :
    (Trex.update t dt o).yPos = t.yPos := by
  unfold Trex.update
  dsimp only
  split_ifs <;> simp [usp_yPos]

/-- Trex.update never changes the ground position. -/
theorem trex_update_groundYPos (t : TrexState) (dt : ℚ) (o : Option TrexStatus) :
    (Trex.update t dt o).groundYPos = t.groundYPos := by
  unfold Trex.update
  dsimp only
  split_ifs <;> simp [usp_groundYPos]

/-- Trex.update never changes the jumping flag. -/
theorem trex_update_jumping (t : TrexState) (dt : ℚ) (o : Option TrexStatus) :
    (Trex.update t dt o).jumping = t.jumping := by
  unfold Trex.update
  dsimp only
  split_ifs <;> simp [usp_jumping]

/-- Trex.update never changes the jump counter. -/
theorem trex_update_jumpCount (t : TrexState) (dt : ℚ) (o : Option TrexStatus) :
    (Trex.update t dt o).jumpCount = t.jumpCount := by
  unfold Trex.update
  dsimp only
  split_ifs <;> simp [usp_jumpCount]

/-- The status after Trex.update: the requested status, except that the
speed-drop-at-ground conversion redirects it to DUCKING (or back to
RUNNING when already DUCKING). -/
theorem trex_update_status (t : TrexState) (dt : ℚ) (o : Option TrexStatus) :
    (Trex.update t dt o).status =
    (if t.speedDrop = true ∧ t.yPos = t.groundYPos then
      (if o.getD t.status ≠ TrexStatus.DUCKING then TrexStatus.DUCKING
       else TrexStatus.RUNNING)
     else o.getD t.status) := by
  unfold Trex.update
  dsimp only
  simp only [usp_speedDrop, usp_yPos, usp_groundYPos, usp_status]
  split_ifs <;> simp_all [usp_status]

/-- endJump only touches the jump velocity: y position unchanged. -/
theorem endJump_yPos (t : TrexState) : (Trex.endJump t).yPos = t.yPos := by
  unfold Trex.endJump
  split_ifs <;> rfl

/-- endJump leaves the ground position unchanged. -/
theorem endJump_groundYPos (t : TrexState) : (Trex.endJump t).groundYPos = t.groundYPos := by
  unfold Trex.endJump
  split_ifs <;> rfl

/-- endJump leaves the speed-drop flag unchanged. -/
theorem endJump_speedDrop (t : TrexState) : (Trex.endJump t).speedDrop = t.speedDrop := by
  unfold Trex.endJump
  split_ifs <;> rfl

/-- endJump leaves the jumping flag unchanged. -/
theorem endJump_jumping (t : TrexState) : (Trex.endJump t).jumping = t.jumping := by
  unfold Trex.endJump
  split_ifs <;> rfl

/-- endJump leaves the jump counter unchanged. -/
theorem endJump_jumpCount (t : TrexState) : (Trex.endJump t).jumpCount = t.jumpCount := by
  unfold Trex.endJump
  split_ifs <;> rfl

/-- endJump leaves the status unchanged. -/
theorem endJump_status (t : TrexState) : (Trex.endJump t).status = t.status := by
  unfold Trex.endJump
  split_ifs <;> rfl

/-- Trex.reset puts the actor on the ground. -/
theorem reset_yPos (t : TrexState) : (Trex.reset t).yPos = t.groundYPos := by
  unfold Trex.reset
  dsimp only
  rw [trex_update_yPos]

/-- Trex.reset clears the jumping flag. -/
theorem reset_jumping (t : TrexState) : (Trex.reset t).jumping = false := by
  unfold Trex.reset
  dsimp only
  rw [trex_update_jumping]

/-- Trex.reset zeroes the jump counter (before updateJump increments it). -/
theorem reset_jumpCount (t : TrexState) : (Trex.reset t).jumpCount = 0 := rfl

/-- Trex.reset clears the speed-drop flag. -/
theorem reset_speedDrop (t : TrexState) : (Trex.reset t).speedDrop = false := rfl

/-- Trex.reset leaves the ground position unchanged. -/
theorem reset_groundYPos (t : TrexState) : (Trex.reset t).groundYPos = t.groundYPos := by
  unfold Trex.reset
  dsimp only
  rw [trex_update_groundYPos]

/-- The status after Trex.reset: RUNNING, except that a pending speed drop
converts it to DUCKING (the embedded update call runs before the flag is
cleared). -/
theorem reset_status (t : TrexState) :
    (Trex.reset t).status =
    (if t.speedDrop = true then TrexStatus.DUCKING else TrexStatus.RUNNING) := by
  unfold Trex.reset
  dsimp only
  rw [trex_update_status]
  by_cases h : t.speedDrop = true <;> simp [h]

set_option maxHeartbeats 1600000 in
/-- Core landing lemma: when the integration step carries the actor past
ground level, updateJump ends the call on the ground, not jumping, with
jumpCount equal to 1 (reset zeroes the counter before the increment), and
with status RUNNING - except that a pending speed drop converts the
landing into DUCKING. -/
theorem updateJump_lands (t : TrexState) (deltaTime : ℚ)
    (h : Trex.integratedY t deltaTime > t.groundYPos) :
    (Trex.updateJump t deltaTime).yPos = t.groundYPos ∧
    (Trex.updateJump t deltaTime).jumping = false ∧
    (Trex.updateJump t deltaTime).jumpCount = 1 ∧
    (Trex.updateJump t deltaTime).status =
      (if t.speedDrop = true then TrexStatus.DUCKING else TrexStatus.RUNNING) := by
  unfold Trex.updateJump
  dsimp only
  have hpos : (if t.speedDrop = true
      then { t with yPos := t.yPos + ((jsRound (t.jumpVelocity * Trex.SPEED_DROP_COEFFICIENT *
        (deltaTime / Trex.animMsPerFrame t.status))) : ℚ) }
      else { t with yPos := t.yPos + ((jsRound (t.jumpVelocity *
        (deltaTime / Trex.animMsPerFrame t.status))) : ℚ) })
      = { t with yPos := Trex.integratedY t deltaTime } := by
    unfold Trex.integratedY
    split <;> rfl
  rw [hpos]
  rw [trex_update_yPos, trex_update_jumping, trex_update_jumpCount, trex_update_status]
  split_ifs <;>
    simp_all [reset_yPos, reset_jumping, reset_jumpCount, reset_speedDrop,
      reset_groundYPos, reset_status, endJump_yPos, endJump_groundYPos,
      endJump_speedDrop, endJump_jumping, endJump_jumpCount, endJump_status]

/-- C9 (amended): for every updateJump call whose integration step carries
the actor past ground level, the actor ends the call at ground level, not
jumping, with jumpCount equal to 1 - reset zeroes the counter before the
increment, so it is not one more than the pre-call value - and with status
RUNNING unless a speed drop was pending, in which case the landing
converts to DUCKING. -/
theorem trex_landing_resets (t : TrexState) (deltaTime : ℚ)
    (h : Trex.integratedY t deltaTime > t.groundYPos) :
    (Trex.updateJump t deltaTime).yPos = t.groundYPos ∧
    (Trex.updateJump t deltaTime).jumping = false ∧
    (Trex.updateJump t deltaTime).jumpCount = 1 ∧
    (Trex.updateJump t deltaTime).status =
      (if t.speedDrop = true then TrexStatus.DUCKING else TrexStatus.RUNNING) :=
  updateJump_lands t deltaTime h

/-- A jumping T-rex just above the ground, moving down fast enough to land
on the next frame, with five completed jumps on the counter. -/
def landingTrexEx : TrexState :=
  { xPos := 50, yPos := 90, groundYPos := 93, minJumpHeight := 63, jumpVelocity := 5,
    timer := 0, msPerFrame := 1000/60, currentFrame := 0, animFramesLen := 1,
    jumpCount := 5, status := .JUMPING, jumping := true, ducking := false,
    speedDrop := false, reachedMinHeight := true, playingIntro := false,
    midair := true }

/-- The concrete landing step passes ground level. -/
theorem landingTrexEx_lands :
    Trex.integratedY landingTrexEx (50/3) > landingTrexEx.groundYPos := by
  unfold Trex.integratedY landingTrexEx Trex.animMsPerFrame jsRound
  norm_num

/-- Counterexample to C9: on this landing call jumpCount ends at 1, not at
the pre-call value plus one (which would be 6): reset sets jumpCount to 0
before updateJump increments it. -/
theorem jumpCount_not_incremented :
    Trex.integratedY landingTrexEx (50/3) > landingTrexEx.groundYPos ∧
    (Trex.updateJump landingTrexEx (50/3)).jumpCount ≠ landingTrexEx.jumpCount + 1 := by
  refine ⟨landingTrexEx_lands, ?_⟩
  have h := (updateJump_lands landingTrexEx (50/3) landingTrexEx_lands).2.2.1
  rw [h]
  norm_num [landingTrexEx]

/-- Witness for C9 at the concrete landing state. -/
theorem trex_landing_resets_witness :
    Trex.integratedY landingTrexEx (50/3) > landingTrexEx.groundYPos ∧
    ((Trex.updateJump landingTrexEx (50/3)).yPos = landingTrexEx.groundYPos ∧
     (Trex.updateJump landingTrexEx (50/3)).jumping = false ∧
     (Trex.updateJump landingTrexEx (50/3)).jumpCount = 1 ∧
     (Trex.updateJump landingTrexEx (50/3)).status =
       (if landingTrexEx.speedDrop = true then TrexStatus.DUCKING
        else TrexStatus.RUNNING)) :=
  ⟨landingTrexEx_lands, trex_landing_resets landingTrexEx (50/3) landingTrexEx_lands⟩
